import Mathlib

/-!
Shallow embedding of the trail-recording / track-import core of the
`trail-blaze-offline-explorer` hiking-map component (the full component in
`src/unnamed/part_000`, second copy, lines 421-1625).

Conventions of the embedding:
* JS numbers holding coordinates are modelled as `ℚ` (all coordinate
  arithmetic in the parsing path is exact on the inputs exercised here);
  the haversine distance is modelled over `ℝ`.
* `Date` instants are modelled as `Nat` milliseconds; every wall-clock read
  (`new Date()`, `Date.now()`) occurring during one callback is passed in as
  a single `now` parameter.
* `parseFloat` / `Number` return `Option ℚ`, `none` standing for `NaN`.
* XML documents produced by `DOMParser` are modelled as the element lists the
  component reads through `getElementsByTagName`, plus a `parserError` flag
  standing for the presence of a `parsererror` element.
* `toast.error` / `toast.success` calls are modelled as a list of emitted
  `Msg` values returned next to the new state.
-/

/-- JS `Position` interface: latitude, longitude, optional accuracy and
heading. -/
structure Position where
  latitude : ℚ
  longitude : ℚ
  accuracy : Option ℚ
  heading : Option ℚ
  deriving DecidableEq, Repr

/-- GeolocationCoordinates as delivered by `navigator.geolocation.watchPosition`:
`latitude`, `longitude`, `accuracy` are always present; `heading` may be null. -/
structure GeoCoords where
  latitude : ℚ
  longitude : ℚ
  accuracy : ℚ
  heading : Option ℚ
  deriving DecidableEq, Repr

/-- `TrailPoint` interface: one sample of a track. -/
structure TrailPoint where
  latitude : ℚ
  longitude : ℚ
  timestamp : Nat
  accuracy : Option ℚ
  deriving DecidableEq, Repr

instance : Inhabited TrailPoint := ⟨⟨0, 0, 0, none⟩⟩

/-- `Trail` interface: id, name, points, start time, optional end time and
distance (the distance is the real-valued haversine total). -/
structure Trail where
  id : String
  name : String
  points : List TrailPoint
  startTime : Nat
  endTime : Option Nat
  distance : Option ℝ

/-- A toast shown to the user (`toast.error` / `toast.success`). -/
inductive Msg where
  | error (text : String)
  | success (text : String)
  deriving DecidableEq, Repr

/-- The component state slice the verified operations touch: the five
`useState` slots `currentPosition`, `isRecordingTrail`, `currentTrail`,
`recordedTrails`, `importedTrails`, `selectedTrail`. -/
structure State where
  currentPosition : Option Position
  isRecordingTrail : Bool
  currentTrail : List TrailPoint
  recordedTrails : List Trail
  importedTrails : List Trail
  selectedTrail : Option String

/-! ## Geodesy (`getDistanceBetweenPoints`, `calculateTrailDistance`) -/

/-- JS `Math.atan2 y x`, expressed through the complex argument of `x + y*I`. -/
noncomputable def atan2 (y x : ℝ) : ℝ := Complex.arg ⟨x, y⟩

/-- Haversine great-circle distance in meters, as in the source
`getDistanceBetweenPoints` (Earth radius 6371e3, degrees converted to
radians). -/
noncomputable def getDistanceBetweenPoints (lat1 lon1 lat2 lon2 : ℚ) : ℝ :=
  let R : ℝ := 6371000
  let phi1 : ℝ := (lat1 : ℝ) * Real.pi / 180
  let phi2 : ℝ := (lat2 : ℝ) * Real.pi / 180
  let dphi : ℝ := ((lat2 : ℝ) - (lat1 : ℝ)) * Real.pi / 180
  let dlam : ℝ := ((lon2 : ℝ) - (lon1 : ℝ)) * Real.pi / 180
  let a : ℝ := Real.sin (dphi / 2) * Real.sin (dphi / 2) +
    Real.cos phi1 * Real.cos phi2 * Real.sin (dlam / 2) * Real.sin (dlam / 2)
  let c : ℝ := 2 * atan2 (Real.sqrt a) (Real.sqrt (1 - a))
  R * c

/-- Source `calculateTrailDistance`: the loop
`for (i = 1; i < points.length; i++) distance += d(points[i-1], points[i])`,
written as structural recursion over consecutive pairs. -/
noncomputable def calculateTrailDistance : List TrailPoint → ℝ
  | [] => 0
  | [_] => 0
  | a :: b :: rest =>
      getDistanceBetweenPoints a.latitude a.longitude b.latitude b.longitude +
        calculateTrailDistance (b :: rest)

/-! ## JS numeric and string primitives used by the parser -/

/-- Decimal digits to a natural number. -/
def digitsToNat (ds : List Char) : Nat :=
  ds.foldl (fun n c => 10 * n + (c.toNat - 48)) 0

/-- Exact rational value of a signed decimal numeral given as integer and
fraction digit lists, built with `mkRat` so that it kernel-reduces. -/
def decToRat (neg : Bool) (intDigits fracDigits : List Char) : ℚ :=
  let denom : Nat := 10 ^ fracDigits.length
  let num : Int := (digitsToNat intDigits * denom + digitsToNat fracDigits : Nat)
  mkRat (if neg then -num else num) denom

/-- JS `parseFloat` restricted to the plain decimal shapes the component
feeds it: skip leading whitespace, optional sign, integer digits, optional
fraction; any trailing characters are ignored; `none` models `NaN`
(no digits at all). Exponent notation is not modelled (never exercised). -/
def parseFloat (s : String) : Option ℚ :=
  let cs := s.toList.dropWhile Char.isWhitespace
  let neg : Bool := cs.head? = some '-'
  let cs := if cs.head? = some '-' ∨ cs.head? = some '+' then cs.tail else cs
  let intDigits := cs.takeWhile Char.isDigit
  let rest := cs.dropWhile Char.isDigit
  let fracDigits : List Char :=
    match rest with
    | '.' :: r => r.takeWhile Char.isDigit
    | _ => []
  if intDigits.isEmpty ∧ fracDigits.isEmpty then none
  else some (decToRat neg intDigits fracDigits)

/-- Whitespace trimming at both ends, structurally over the character
list (JS `String.prototype.trim`). -/
def trimChars (cs : List Char) : List Char :=
  ((cs.dropWhile Char.isWhitespace).reverse.dropWhile Char.isWhitespace).reverse

/-- Splitting a character list at every separator character, keeping empty
fields, as JS `split` with a single-character separator does. -/
def splitCharsAux (p : Char → Bool) : List Char → List Char → List (List Char)
  | [], cur => [cur.reverse]
  | c :: cs, cur =>
      if p c then cur.reverse :: splitCharsAux p cs []
      else splitCharsAux p cs (c :: cur)

/-- JS `s.split(sep)` for a one-character separator (same field semantics
as `String.split`, restated structurally so that it kernel-reduces). -/
def jsSplit (s : String) (p : Char → Bool) : List String :=
  (splitCharsAux p s.toList []).map List.asString

/-- JS `Number(s)` on a string: empty (after trimming) is `0`; otherwise the
whole trimmed string must be a decimal numeral, else `NaN` (`none`). -/
def jsNumber (s : String) : Option ℚ :=
  let cs := trimChars s.toList
  if cs.isEmpty then some 0
  else
    let neg : Bool := cs.head? = some '-'
    let cs := if cs.head? = some '-' ∨ cs.head? = some '+' then cs.tail else cs
    let intDigits := cs.takeWhile Char.isDigit
    let rest := cs.dropWhile Char.isDigit
    let fracOk : Bool × List Char :=
      match rest with
      | [] => (true, [])
      | '.' :: r => (r.dropWhile Char.isDigit = [], r.takeWhile Char.isDigit)
      | _ => (false, [])
    if intDigits.isEmpty ∧ fracOk.2.isEmpty then none
    else if ¬ fracOk.1 then none
    else some (decToRat neg intDigits fracOk.2)

/-- JS `text.trim().split(/[\s\n\r]+/)` followed by dropping empty tokens
(the LineString branch filters them explicitly; the `/\s+/` regex of the
gx branch never produces them on trimmed input, the sole divergence being
the all-whitespace string whose lone empty token is rejected downstream in
both semantics). -/
def splitWs (s : String) : List String :=
  ((splitCharsAux Char.isWhitespace (trimChars s.toList) []).map List.asString).filter
    (fun t => ¬ t = "")

/-- JS `attr || '0'`: a missing or empty attribute string falls back to
`"0"` (empty string is falsy). -/
def attrOr0 : Option String → String
  | none => "0"
  | some s => if s = "" then "0" else s

/-! ## XML document model

`DOMParser.parseFromString` is the browser; the component only reads the
result through `getElementsByTagName`, so a parsed document is modelled as
exactly those reads: element lists in document order, plus a flag for the
presence of a `parsererror` element. -/

/-- A `trkpt` element: `lat` / `lon` attributes (absent = `none`) and the
instant of an optional nested `time` child (absent = `none`; the code then
defaults to `new Date()`; a present-but-unparsable time is not modelled). -/
structure TrkPt where
  latAttr : Option String
  lonAttr : Option String
  time : Option Nat
  deriving DecidableEq, Repr

/-- A `LineString` element: the text contents of its `coordinates`
children (`textContent || ''` folded into the string). -/
structure LineString where
  coordinates : List String
  deriving DecidableEq, Repr

/-- A `Placemark` element: text contents of its `coordinates` children and
of its `name` children. -/
structure Placemark where
  coordinates : List String
  names : List String
  deriving DecidableEq, Repr

/-- A `gx:Track` element: the text contents of its `gx:coord` children. -/
structure GxTrack where
  coords : List String
  deriving DecidableEq, Repr

/-- A parsed XML document, as read by `parseTrailFile`. -/
structure XmlDoc where
  parserError : Bool
  trkpts : List TrkPt
  lineStrings : List LineString
  placemarks : List Placemark
  gxTracks : List GxTrack
  deriving DecidableEq, Repr

/-! ## Extraction stages of `parseTrailFile` -/

/-- GPX branch body for one `trkpt`: the zero or one points it contributes.
`lat = parseFloat(trkpt.getAttribute('lat') || '0')`, same for `lon`;
kept when `!isNaN(lat) && !isNaN(lon) && lat !== 0 && lon !== 0`. -/
def gpxPointOf (tp : TrkPt) (now : Nat) : List TrailPoint :=
  match parseFloat (attrOr0 tp.latAttr), parseFloat (attrOr0 tp.lonAttr) with
  | some la, some lo =>
      if la ≠ 0 ∧ lo ≠ 0 then [⟨la, lo, tp.time.getD now, none⟩] else []
  | _, _ => []

/-- GPX branch: the `for` loop over `trkpt` elements pushing kept points in
document order. -/
def gpxPoints (trkpts : List TrkPt) (now : Nat) : List TrailPoint :=
  trkpts.foldl (fun pts tp => pts ++ gpxPointOf tp now) []

/-- One whitespace-separated `lon,lat[,alt]` entry of a LineString
coordinate block: split at commas, need at least two fields,
`lon = parseFloat(coords[0])`, `lat = parseFloat(coords[1])`, kept under the
zero-coordinate exclusion rule. -/
def lineStringEntryPoint (entry : String) (now : Nat) : List TrailPoint :=
  match jsSplit entry (· = ',') with
  | c0 :: c1 :: _ =>
      match parseFloat c0, parseFloat c1 with
      | some lo, some la =>
          if la ≠ 0 ∧ lo ≠ 0 then [⟨la, lo, now, none⟩] else []
      | _, _ => []
  | _ => []

/-- All points of one LineString coordinate block, in source-text order. -/
def lineStringPointsOfText (text : String) (now : Nat) : List TrailPoint :=
  (splitWs text).foldl (fun pts entry => pts ++ lineStringEntryPoint entry now) []

/-- KML first strategy: every `LineString`, using its first `coordinates`
child when one exists. -/
def kmlLineStringPoints (lineStrings : List LineString) (now : Nat) : List TrailPoint :=
  lineStrings.foldl (fun pts ls =>
    match ls.coordinates with
    | [] => pts
    | text :: _ => pts ++ lineStringPointsOfText text now) []

/-- The coordinate (plus unused display name) one `Placemark` contributes to
the fallback collection, per the source loop body. -/
def placemarkCoordOf (pm : Placemark) : List (ℚ × ℚ × String) :=
  match pm.coordinates with
  | [] => []
  | text :: _ =>
      match jsSplit text (· = ',') with
      | c0 :: c1 :: _ =>
          match parseFloat c0, parseFloat c1 with
          | some lo, some la =>
              if la ≠ 0 ∧ lo ≠ 0 then [(la, lo, pm.names.headD "")] else []
          | _, _ => []
      | _ => []

/-- KML second strategy collection pass: `collectedCoords`, one candidate
coordinate per Placemark in document order. -/
def collectPlacemarkCoords (pms : List Placemark) : List (ℚ × ℚ × String) :=
  pms.foldl (fun acc pm => acc ++ placemarkCoordOf pm) []

/-- KML second strategy: convert the collected coordinates to points with
synthetic timestamps `Date.now() + index * 1000`. -/
def placemarkPoints (pms : List Placemark) (now : Nat) : List TrailPoint :=
  (collectPlacemarkCoords pms).enum.map
    (fun ic => ⟨ic.2.1, ic.2.2.1, now + ic.1 * 1000, none⟩)

/-- One `gx:coord` text: `const [lon, lat] = text.trim().split(/\s+/).map(Number)`,
destructuring `undefined` (hence `NaN`) when fewer than two tokens. -/
def gxCoordPoint (text : String) (now : Nat) : List TrailPoint :=
  let toks := splitWs text
  match (toks.get? 0).bind jsNumber, (toks.get? 1).bind jsNumber with
  | some lo, some la =>
      if la ≠ 0 ∧ lo ≠ 0 then [⟨la, lo, now, none⟩] else []
  | _, _ => []

/-- KML third strategy: every `gx:Track`, iterating all its `gx:coord`
children (the `length > 0` guard in the source is subsumed by the loop). -/
def gxTrackPoints (tracks : List GxTrack) (now : Nat) : List TrailPoint :=
  tracks.foldl (fun pts tr =>
    pts ++ tr.coords.foldl (fun ps ct => ps ++ gxCoordPoint ct now) []) []

/-- KML branch of `parseTrailFile`: LineStrings first; if zero points, the
Placemark fallback; if still zero, the `gx:Track` fallback. -/
def kmlPoints (doc : XmlDoc) (now : Nat) : List TrailPoint :=
  let pts := kmlLineStringPoints doc.lineStrings now
  let pts := if pts.length = 0 then placemarkPoints doc.placemarks now else pts
  if pts.length = 0 then gxTrackPoints doc.gxTracks now else pts

/-- ASCII lower-casing (JS `toLowerCase`), structurally over characters. -/
def toLowerStr (s : String) : String :=
  (s.toList.map Char.toLower).asString

/-- Suffix test restated structurally so that it kernel-reduces. -/
def strEndsWith (s suffx : String) : Bool :=
  s.toList.reverse.take suffx.toList.length == suffx.toList.reverse

/-- Source `fileName.replace(/\.(gpx|kml)$/i, '')`: strip a trailing
`.gpx` / `.kml` (case-insensitive). -/
def stripTrailFileExt (fileName : String) : String :=
  if strEndsWith (toLowerStr fileName) ".gpx" ∨ strEndsWith (toLowerStr fileName) ".kml" then
    (fileName.toList.take (fileName.toList.length - 4)).asString
  else fileName

/-- Source `parseTrailFile(content, fileName, fileExtension)`. The
`DOMParser` call is replaced by the already-modelled document `doc`; both
format branches first bail out (`null`) on a `parsererror` element; any
other extension leaves the point list empty; zero collected points is a
failure (`null`); otherwise the `Trail` is constructed whole. -/
noncomputable def parseTrailFile (doc : XmlDoc) (fileName : String)
    (fileExtension : String) (now : Nat) : Option Trail :=
  let pts? : Option (List TrailPoint) :=
    if fileExtension = ".gpx" then
      if doc.parserError then none else some (gpxPoints doc.trkpts now)
    else if fileExtension = ".kml" then
      if doc.parserError then none else some (kmlPoints doc now)
    else some []
  match pts? with
  | none => none
  | some [] => none
  | some (p :: rest) =>
      some
        { id := "imported-" ++ toString now
          name := stripTrailFileExt fileName
          points := p :: rest
          startTime := p.timestamp
          endTime := some ((p :: rest).getLast (List.cons_ne_nil p rest)).timestamp
          distance := some (calculateTrailDistance (p :: rest)) }

/-! ## Session operations -/

/-- JS `position.coords.heading || undefined`: `null`, `0` and `NaN`
headings become `undefined`. -/
def headingOrUndefined : Option ℚ → Option ℚ
  | none => none
  | some h => if h = 0 then none else some h

/-- The `TrailPoint` recorded for one position update
(`latitude`, `longitude`, `timestamp: new Date()`, `accuracy`). -/
def recordedPoint (u : GeoCoords) (now : Nat) : TrailPoint :=
  ⟨u.latitude, u.longitude, now, some u.accuracy⟩

/-- The `watchPosition` success callback inside `startTracking`: the update
becomes the new current position, and is appended to the recording buffer
(`setCurrentTrail(prev => [...prev, trailPoint])`) when a recording session
is active. Map fly-to / marker / bearing effects are rendering side effects
outside the modelled state. -/
def positionUpdate (s : State) (u : GeoCoords) (now : Nat) : State :=
  let newPosition : Position :=
    ⟨u.latitude, u.longitude, some u.accuracy, headingOrUndefined u.heading⟩
  let s := { s with currentPosition := some newPosition }
  if s.isRecordingTrail then
    { s with currentTrail := s.currentTrail ++ [recordedPoint u now] }
  else s

/-- A sequence of position updates delivered in arrival order, each with
its wall-clock instant. -/
def runUpdates (s : State) (updates : List (GeoCoords × Nat)) : State :=
  updates.foldl (fun s u => positionUpdate s u.1 u.2) s

/-- Source `startTrailRecording`: requires a current position, then seeds
the buffer with one point at that position and raises the recording flag. -/
def startTrailRecording (s : State) (now : Nat) : State × List Msg :=
  match s.currentPosition with
  | none => (s, [.error "GPS location required to start trail recording"])
  | some cp =>
      ({ s with
          isRecordingTrail := true
          currentTrail := [⟨cp.latitude, cp.longitude, now, cp.accuracy⟩] },
        [.success "Trail recording started!"])

/-- Source `stopTrailRecording`. Note the source never consults
`isRecordingTrail`: the only branch condition is `currentTrail.length < 2`.
The map layer/source removal in the save branch is a rendering side
effect outside the modelled state. -/
noncomputable def stopTrailRecording (s : State) (now : Nat) : State × List Msg :=
  if s.currentTrail.length < 2 then
    ({ s with isRecordingTrail := false, currentTrail := [] },
      [.error "Trail too short to save"])
  else
    let trail : Trail :=
      { id := "trail-" ++ toString now
        name := "Trail " ++ toString (s.recordedTrails.length + 1)
        points := s.currentTrail
        startTime := (s.currentTrail.headD default).timestamp
        endTime := some now
        distance := some (calculateTrailDistance s.currentTrail) }
    ({ s with
        recordedTrails := s.recordedTrails ++ [trail]
        isRecordingTrail := false
        currentTrail := [] },
      [.success ("Trail \"" ++ trail.name ++ "\" saved!")])

/-- Source `'.' + file.name.split('.').pop()?.toLowerCase()`. -/
def fileExtensionOf (fileName : String) : String :=
  "." ++ toLowerStr ((jsSplit fileName (· = '.')).getLastD "")

/-- Source `handleFileUpload`, after the `FileReader` has delivered the file
content and `DOMParser` has produced `doc`: validate the extension, parse,
and on success append the one parsed trail to `importedTrails`. The
`try`/`catch` and reader-error paths also leave the collection unchanged. -/
noncomputable def handleFileUpload (s : State) (fileName : String) (doc : XmlDoc)
    (now : Nat) : State × List Msg :=
  let fileExtension := fileExtensionOf fileName
  if ¬ (fileExtension = ".gpx" ∨ fileExtension = ".kml") then
    (s, [.error "Please upload a valid GPX or KML file"])
  else
    match parseTrailFile doc fileName fileExtension now with
    | some trail =>
        ({ s with importedTrails := s.importedTrails ++ [trail] },
          [.success ("Imported " ++ trail.name ++ " with " ++
            toString trail.points.length ++ " points")])
    | none => (s, [.error "Failed to parse trail file"])

/-- Source `deleteTrail(trailId, isImported)`: filter the collection chosen
by the provenance flag, clear the selection when it equals the deleted id,
always report success. -/
def deleteTrail (s : State) (trailId : String) (isImported : Bool) : State × List Msg :=
  let s :=
    if isImported then
      { s with importedTrails := s.importedTrails.filter (fun t => ¬ t.id = trailId) }
    else
      { s with recordedTrails := s.recordedTrails.filter (fun t => ¬ t.id = trailId) }
  let s := if s.selectedTrail = some trailId then { s with selectedTrail := none } else s
  (s, [.success "Trail deleted"])

/-- An export artifact: the blob content and the download file name. -/
structure ExportFile where
  content : String
  fileName : String

/-- Time-to-text formatting (`toISOString` and its date prefix) is
abstracted to `toString`; no verified claim inspects the rendered bytes. -/
def isoString (t : Nat) : String := toString t

/-- GPX text produced for one trail by `exportTrail` (rational-to-text
rendering abstracted to `toString`). -/
def gpxTrailContent (trail : Trail) : String :=
  "<?xml version=\"1.0\"?>\n<gpx version=\"1.1\" creator=\"HikeTracker\">\n  <trk>\n    <name>" ++
    trail.name ++ "</name>\n    <trkseg>\n      " ++
    (trail.points.map (fun point =>
      "\n      <trkpt lat=\"" ++ toString point.latitude ++ "\" lon=\"" ++
        toString point.longitude ++ "\">\n        <time>" ++
        isoString point.timestamp ++ "</time>\n      </trkpt>")).foldl (· ++ ·) "" ++
    "\n    </trkseg>\n  </trk>\n</gpx>"

/-- Download name `${trail.name.replace(/\s+/g, '-')}-${startDate}.gpx`
(whitespace-run collapsing approximated per character; no claim inspects
the rendered name). -/
def exportFileNameOf (trail : Trail) : String :=
  String.map (fun c => if c = ' ' then '-' else c) trail.name ++ "-" ++
    isoString trail.startTime ++ ".gpx"

/-- Source `exportTrail(trailId, isImported)`: look the trail up in the
collection chosen by the provenance flag; `if (!trail) return;` is a silent
early return producing nothing; otherwise build the GPX blob, trigger the
download, and report success. No state slot is written in either path. -/
def exportTrail (s : State) (trailId : String) (isImported : Bool) :
    State × Option ExportFile × List Msg :=
  let trailList := if isImported then s.importedTrails else s.recordedTrails
  match trailList.find? (fun t => t.id = trailId) with
  | none => (s, none, [])
  | some trail =>
      (s, some ⟨gpxTrailContent trail, exportFileNameOf trail⟩,
        [.success ("Trail \"" ++ trail.name ++ "\" exported as GPX file")])

/-! ## Specification-side definitions

These restate extraction conditions in the words of the specification; the
theorems below relate the imperative extraction loops to them. -/

/-- Specification-side keep predicate for a GPX track point: both
coordinate attributes parse to valid numbers and neither is exactly zero. -/
def gpxKeptSpec (tp : TrkPt) : Bool :=
  match parseFloat (attrOr0 tp.latAttr), parseFloat (attrOr0 tp.lonAttr) with
  | some la, some lo => decide (la ≠ 0 ∧ lo ≠ 0)
  | _, _ => false

/-- The point data a kept GPX track point contributes (coordinates from the
attributes, timestamp from the `time` child or `now`). -/
def gpxTrailPointOf (tp : TrkPt) (now : Nat) : TrailPoint :=
  ⟨(parseFloat (attrOr0 tp.latAttr)).getD 0, (parseFloat (attrOr0 tp.lonAttr)).getD 0,
    tp.time.getD now, none⟩

/-- Specification-side reading of one `lon,lat[,alt]` LineString entry: the
(latitude, longitude) pair when the entry has at least two comma-separated
fields, both parse, and neither is zero. -/
def lineStringEntrySpec (entry : String) : Option (ℚ × ℚ) :=
  match jsSplit entry (· = ',') with
  | c0 :: c1 :: _ =>
      match parseFloat c0, parseFloat c1 with
      | some lo, some la => if la ≠ 0 ∧ lo ≠ 0 then some (la, lo) else none
      | _, _ => none
  | _ => none

/-! ## Helper lemmas -/

/-- Imperative push-loops are folds with an accumulated prefix; they equal
the concatenation of the per-element contributions. -/
theorem foldl_append_init {α β : Type} (f : α → List β) :
    ∀ (l : List α) (acc : List β),
      l.foldl (fun bs a => bs ++ f a) acc = acc ++ (l.map f).flatten := by
  intro l
  induction l with
  | nil => intro acc; simp
  | cons a t ih => intro acc; simp [ih, List.append_assoc]

/-- Conditional singleton contributions collapse to `filter` + `map`. -/
theorem join_map_ite {α β : Type} (p : α → Bool) (g : α → β) (l : List α) :
    (l.map (fun a => if p a then [g a] else [])).flatten = (l.filter p).map g := by
  induction l with
  | nil => simp
  | cons a t ih =>
      by_cases h : p a <;> simp [h, ih]

/-- Optional singleton contributions collapse to `filterMap` + `map`. -/
theorem join_map_opt {α β γ : Type} (f : α → Option β) (g : β → γ) (l : List α) :
    (l.map (fun a => ((f a).map g).toList)).flatten = (l.filterMap f).map g := by
  induction l with
  | nil => simp
  | cons a t ih =>
      cases h : f a <;> simp [h, ih, List.filterMap_cons]

/-- Distance of a split track: appending the tail track at the shared
boundary point adds the distances. -/
theorem calculateTrailDistance_concat (p : TrailPoint) (l2 : List TrailPoint) :
    ∀ l1 : List TrailPoint,
      calculateTrailDistance (l1 ++ p :: l2) =
        calculateTrailDistance (l1 ++ [p]) + calculateTrailDistance (p :: l2) := by
  intro l1
  induction l1 with
  | nil => simp [calculateTrailDistance]
  | cons a t ih =>
      cases t with
      | nil =>
          cases l2 with
          | nil => simp [calculateTrailDistance]
          | cons b r => simp [calculateTrailDistance]; try ring
      | cons b t2 =>
          simp only [List.cons_append, List.append_eq, calculateTrailDistance] at ih ⊢
          rw [ih]; ring

/-- The GPX loop body keeps a point exactly under the spec predicate and
then contributes the attribute data. -/
theorem gpxPointOf_eq_spec (tp : TrkPt) (now : Nat) :
    gpxPointOf tp now = if gpxKeptSpec tp then [gpxTrailPointOf tp now] else [] := by
  unfold gpxPointOf gpxKeptSpec gpxTrailPointOf
  cases h1 : parseFloat (attrOr0 tp.latAttr) <;>
    cases h2 : parseFloat (attrOr0 tp.lonAttr) <;>
      simp [h1, h2]

/-- The GPX extraction loop is the filter of the document's track points by
the spec keep-predicate, mapped to their point data, in document order. -/
theorem gpxPoints_eq_spec (trkpts : List TrkPt) (now : Nat) :
    gpxPoints trkpts now =
      (trkpts.filter gpxKeptSpec).map (fun tp => gpxTrailPointOf tp now) := by
  unfold gpxPoints
  rw [foldl_append_init]
  rw [List.map_congr_left (fun tp _ => gpxPointOf_eq_spec tp now)]
  simp [join_map_ite]

/-- The LineString entry loop body keeps a point exactly when the spec-side
entry reading succeeds, and then contributes (lat, lon) in that order. -/
theorem lineStringEntryPoint_eq_spec (entry : String) (now : Nat) :
    lineStringEntryPoint entry now =
      ((lineStringEntrySpec entry).map
        (fun (q : ℚ × ℚ) => (⟨q.1, q.2, now, none⟩ : TrailPoint))).toList := by
  unfold lineStringEntryPoint lineStringEntrySpec
  cases hs : jsSplit entry (· = ',') with
  | nil => simp
  | cons c0 rest =>
      cases rest with
      | nil => simp
      | cons c1 r2 =>
          cases h1 : parseFloat c0 <;> cases h2 : parseFloat c1 <;> simp [h1, h2]
          split <;> simp

/-- One LineString coordinate block yields exactly the successfully read
entries, in source-text order, each timestamped `now`. -/
theorem lineStringPointsOfText_eq_spec (text : String) (now : Nat) :
    lineStringPointsOfText text now =
      ((splitWs text).filterMap lineStringEntrySpec).map
        (fun q => ⟨q.1, q.2, now, none⟩) := by
  unfold lineStringPointsOfText
  rw [foldl_append_init]
  rw [List.map_congr_left (fun e _ => lineStringEntryPoint_eq_spec e now)]
  simp only [List.nil_append]
  exact join_map_opt lineStringEntrySpec
    (fun (q : ℚ × ℚ) => (⟨q.1, q.2, now, none⟩ : TrailPoint)) (splitWs text)

/-- The synthetic timestamps of the Placemark fallback are
`now + index * 1000` along the collected coordinates. -/
theorem placemarkPoints_timestamps (pms : List Placemark) (now : Nat) :
    (placemarkPoints pms now).map TrailPoint.timestamp =
      (List.range (collectPlacemarkCoords pms).length).map (fun i => now + i * 1000) := by
  unfold placemarkPoints
  rw [List.map_map]
  have h : (TrailPoint.timestamp ∘ fun ic : Nat × (ℚ × ℚ × String) =>
      (⟨ic.2.1, ic.2.2.1, now + ic.1 * 1000, none⟩ : TrailPoint)) =
      (fun i => now + i * 1000) ∘ Prod.fst := rfl
  rw [h, ← List.map_map, List.enum_map_fst]

/-- Spacing by a positive stride yields strictly increasing values. -/
theorem timestamps_strict_chain (n now : Nat) :
    List.Chain' (· < ·) ((List.range n).map (fun i => now + i * 1000)) := by
  apply List.Pairwise.chain'
  rw [List.pairwise_map]
  exact (List.pairwise_lt_range n).imp (fun hab => by omega)

/-- When the LineString strategy yields nothing and the Placemark fallback
yields something, the KML result is the Placemark fallback. -/
theorem kmlPoints_placemark_fallback (doc : XmlDoc) (now : Nat)
    (h : kmlLineStringPoints doc.lineStrings now = [])
    (h2 : placemarkPoints doc.placemarks now ≠ []) :
    kmlPoints doc now = placemarkPoints doc.placemarks now := by
  unfold kmlPoints
  simp [h, List.length_eq_zero, h2]

/-- One position update during recording: the new current position is set,
one point is appended, and the recording flag is untouched. -/
theorem positionUpdate_recording (s : State) (u : GeoCoords) (now : Nat)
    (h : s.isRecordingTrail = true) :
    (positionUpdate s u now).currentTrail = s.currentTrail ++ [recordedPoint u now] ∧
    (positionUpdate s u now).isRecordingTrail = true ∧
    (positionUpdate s u now).currentPosition =
      some ⟨u.latitude, u.longitude, some u.accuracy, headingOrUndefined u.heading⟩ := by
  unfold positionUpdate
  simp [h]

/-- Iterating position updates during recording appends exactly one point
per update, in arrival order, and recording stays active. -/
theorem runUpdates_recording (updates : List (GeoCoords × Nat)) :
    ∀ s : State, s.isRecordingTrail = true →
      (runUpdates s updates).currentTrail =
        s.currentTrail ++ updates.map (fun un => recordedPoint un.1 un.2) ∧
      (runUpdates s updates).isRecordingTrail = true := by
  induction updates with
  | nil => intro s h; simp [runUpdates, h]
  | cons u rest ih =>
      intro s h
      have h1 := positionUpdate_recording s u.1 u.2 h
      have h2 := ih (positionUpdate s u.1 u.2) h1.2.1
      unfold runUpdates at h2 ⊢
      simp only [List.foldl_cons]
      rw [h2.1, h1.1]
      simp [h2.2]

/-- A trail with any other extension than `.gpx` / `.kml` never parses
(the point list stays empty and an empty extraction is a failure). -/
theorem parseTrailFile_invalid_ext (doc : XmlDoc) (fn ext : String) (now : Nat)
    (hg : ¬ ext = ".gpx") (hk : ¬ ext = ".kml") :
    parseTrailFile doc fn ext now = none := by
  unfold parseTrailFile
  simp [hg, hk]

/-- Inversion for a successful parse: the returned trail is fully
constructed from the extracted points. -/
theorem parseTrailFile_some_shape (doc : XmlDoc) (fn ext : String) (now : Nat)
    (t : Trail) (h : parseTrailFile doc fn ext now = some t) :
    t.points ≠ [] ∧
    t.startTime = (t.points.headD default).timestamp ∧
    t.endTime = some (t.points.getLastD default).timestamp ∧
    t.distance = some (calculateTrailDistance t.points) ∧
    t.name = stripTrailFileExt fn ∧
    t.id = "imported-" ++ toString now := by
  unfold parseTrailFile at h
  set pts? : Option (List TrailPoint) :=
    (if ext = ".gpx" then
      if doc.parserError then none else some (gpxPoints doc.trkpts now)
    else if ext = ".kml" then
      if doc.parserError then none else some (kmlPoints doc now)
    else some []) with hpts
  clear_value pts?
  match pts? with
  | none => simp at h
  | some [] => simp at h
  | some (p :: rest) =>
      simp only [Option.some.injEq] at h
      subst h
      refine ⟨by simp, by simp, ?_, rfl, rfl, rfl⟩
      simp [List.getLastD_eq_getLast?, List.getLast?_eq_getLast (p :: rest) (by simp)]

/-! ## Claim theorems -/

/-- C9: `calculateTrailDistance` returns 0 for the empty and the one-point
sequence, and is additive over concatenation of point sequences sharing a
boundary point: the distance of `p0..pk` plus the distance of `pk..pn`
equals the distance of `p0..pn`. -/
theorem claim_trackDistance_additive :
    calculateTrailDistance [] = 0 ∧
    (∀ p : TrailPoint, calculateTrailDistance [p] = 0) ∧
    (∀ (l1 l2 : List TrailPoint) (p : TrailPoint),
      calculateTrailDistance (l1 ++ [p]) + calculateTrailDistance (p :: l2) =
        calculateTrailDistance (l1 ++ p :: l2)) :=
  ⟨rfl, fun _ => rfl, fun l1 l2 p => (calculateTrailDistance_concat p l2 l1).symm⟩

/-- C6: when parsing GPX, a track point is included in the resulting Trail
iff both its lat and lon attributes parse to valid numbers and neither
equals exactly 0 (the extraction loop equals the filter by that predicate,
mapped to the attribute data, in document order); in particular a GPX
document with one `lat="0" lon="0"` point and two valid points yields
exactly the 2 valid points, in document order. -/
theorem claim_gpx_zero_exclusion :
    (∀ (trkpts : List TrkPt) (now : Nat),
      gpxPoints trkpts now =
        (trkpts.filter gpxKeptSpec).map (fun tp => gpxTrailPointOf tp now)) ∧
    (parseTrailFile
        ⟨false, [⟨some "0", some "0", some 100⟩, ⟨some "10", some "20", some 200⟩,
          ⟨some "11", some "21", some 300⟩], [], [], []⟩ "hike.gpx" ".gpx" 0).map
        Trail.points =
      some [⟨10, 20, 200, none⟩, ⟨11, 21, 300, none⟩] :=
  ⟨gpxPoints_eq_spec, by decide⟩

/-- C7: a KML LineString coordinate block is read entry by entry in
source-text order as `lon,lat[,alt]`; in particular the block
`"10,20,0 11,21,0"` yields exactly the points (lat, lon) = (20, 10) then
(21, 11), in that order. -/
theorem claim_kml_linestring_order :
    (∀ (text : String) (now : Nat),
      lineStringPointsOfText text now =
        ((splitWs text).filterMap lineStringEntrySpec).map
          (fun q => ⟨q.1, q.2, now, none⟩)) ∧
    (parseTrailFile ⟨false, [], [⟨["10,20,0 11,21,0"]⟩], [], []⟩ "x.kml" ".kml" 5).map
        Trail.points =
      some [⟨20, 10, 5, none⟩, ⟨21, 11, 5, none⟩] :=
  ⟨lineStringPointsOfText_eq_spec, by decide⟩

/-- C8 counterexample: a KML document with no LineString (so no LineString
yields a point) and no Placemark, but with a `gx:Track` of two samples:
parsing succeeds and the resulting Trail carries timestamps `[0, 0]`,
which are not strictly increasing, contradicting the claim that for every
such input the resulting Trail has strictly increasing Placemark-fallback
timestamps. -/
theorem claim_kml_placemark_fallback_cex :
    (parseTrailFile ⟨false, [], [], [], [⟨["10 20", "11 21"]⟩]⟩ "t.kml" ".kml" 0).map
        (fun t => t.points.map TrailPoint.timestamp) = some [0, 0] ∧
    ¬ List.Chain' (· < ·) ((parseTrailFile ⟨false, [], [], [], [⟨["10 20", "11 21"]⟩]⟩
        "t.kml" ".kml" 0).elim [] (fun t => t.points.map TrailPoint.timestamp)) ∧
    kmlLineStringPoints (XmlDoc.lineStrings ⟨false, [], [], [], [⟨["10 20", "11 21"]⟩]⟩) 0 = [] := by
  refine ⟨by decide, ?_, by decide⟩
  intro hchain
  have h0 : (parseTrailFile ⟨false, [], [], [], [⟨["10 20", "11 21"]⟩]⟩
      "t.kml" ".kml" 0).elim [] (fun t => t.points.map TrailPoint.timestamp) =
      [0, 0] := by decide
  rw [h0] at hchain
  simp [List.chain'_cons] at hchain

/-- C8 (amended): for every KML input in which no LineString yields any
point, the Placemark fallback collects one coordinate per Placemark with
synthetic timestamps spaced exactly 1 second apart in Placemark order
(hence strictly increasing), and, provided this fallback yields at least
one point, the resulting point list is exactly the fallback; if the
fallback also yields zero points a further `gx:Track` strategy runs, whose
points all share the same wall-clock timestamp. -/
theorem claim_kml_placemark_fallback :
    ∀ (doc : XmlDoc) (now : Nat),
      kmlLineStringPoints doc.lineStrings now = [] →
      ((placemarkPoints doc.placemarks now).map TrailPoint.timestamp =
        (List.range (collectPlacemarkCoords doc.placemarks).length).map
          (fun i => now + i * 1000)) ∧
      List.Chain' (· < ·) ((placemarkPoints doc.placemarks now).map TrailPoint.timestamp) ∧
      (placemarkPoints doc.placemarks now ≠ [] →
        kmlPoints doc now = placemarkPoints doc.placemarks now) := by
  intro doc now h
  refine ⟨placemarkPoints_timestamps doc.placemarks now, ?_,
    fun h2 => kmlPoints_placemark_fallback doc now h h2⟩
  rw [placemarkPoints_timestamps]
  exact timestamps_strict_chain _ now

/-- KML fixture for the C8 witness: no LineString, two Placemarks. -/
def docC8 : XmlDoc := ⟨false, [], [], [⟨["3,4,0"], []⟩, ⟨["5,6"], []⟩], []⟩

/-- Witness for C8 (amended) at a concrete document with two Placemarks. -/
theorem claim_kml_placemark_fallback_witness :
    ((placemarkPoints docC8.placemarks 100).map TrailPoint.timestamp =
      (List.range (collectPlacemarkCoords docC8.placemarks).length).map
        (fun i => 100 + i * 1000)) ∧
    List.Chain' (· < ·) ((placemarkPoints docC8.placemarks 100).map TrailPoint.timestamp) ∧
    kmlPoints docC8 100 = placemarkPoints docC8.placemarks 100 :=
  ⟨(claim_kml_placemark_fallback docC8 100 (by decide)).1,
    (claim_kml_placemark_fallback docC8 100 (by decide)).2.1,
    (claim_kml_placemark_fallback docC8 100 (by decide)).2.2 (by decide)⟩

/-- C1: while a recording session is active, each delivered position update
appends exactly one TrailPoint with the update's latitude, longitude,
accuracy and the current time; after a seed from `startTrailRecording` and
n updates the buffer is the seed point followed by the n appended points,
in arrival order. -/
theorem claim_recording_appends_each_update :
    (∀ (s : State) (u : GeoCoords) (now : Nat), s.isRecordingTrail = true →
      (positionUpdate s u now).currentTrail = s.currentTrail ++ [recordedPoint u now] ∧
      (positionUpdate s u now).currentPosition =
        some ⟨u.latitude, u.longitude, some u.accuracy, headingOrUndefined u.heading⟩) ∧
    (∀ (s : State) (updates : List (GeoCoords × Nat)), s.isRecordingTrail = true →
      (runUpdates s updates).currentTrail =
        s.currentTrail ++ updates.map (fun un => recordedPoint un.1 un.2)) ∧
    (∀ (s : State) (cp : Position) (t0 : Nat) (updates : List (GeoCoords × Nat)),
      s.currentPosition = some cp →
      (runUpdates (startTrailRecording s t0).1 updates).currentTrail =
        ⟨cp.latitude, cp.longitude, t0, cp.accuracy⟩ ::
          updates.map (fun un => recordedPoint un.1 un.2)) := by
  refine ⟨fun s u now h => ⟨(positionUpdate_recording s u now h).1,
      (positionUpdate_recording s u now h).2.2⟩,
    fun s updates h => (runUpdates_recording updates s h).1,
    fun s cp t0 updates h => ?_⟩
  have hstart : (startTrailRecording s t0).1 =
      { s with
          isRecordingTrail := true
          currentTrail := [⟨cp.latitude, cp.longitude, t0, cp.accuracy⟩] } := by
    unfold startTrailRecording; rw [h]
  rw [hstart, (runUpdates_recording updates _ rfl).1]
  simp

/-- Fixtures for the C1 witness: a known position, two updates, one idle
state carrying the position and one state mid-recording. -/
def pC1 : Position := ⟨7, 8, some 5, none⟩

def uC1 : GeoCoords := ⟨9, 10, 4, none⟩

def uC1b : GeoCoords := ⟨11, 12, 3, some 90⟩

def stC1 : State := ⟨some pC1, false, [], [], [], none⟩

def stC1r : State := ⟨some pC1, true, [⟨7, 8, 0, some 5⟩], [], [], none⟩

/-- Witness for C1 at concrete states and updates. -/
theorem claim_recording_appends_each_update_witness :
    ((positionUpdate stC1r uC1 1).currentTrail = stC1r.currentTrail ++ [recordedPoint uC1 1] ∧
      (positionUpdate stC1r uC1 1).currentPosition =
        some ⟨uC1.latitude, uC1.longitude, some uC1.accuracy, headingOrUndefined uC1.heading⟩) ∧
    ((runUpdates stC1r [(uC1, 1), (uC1b, 2)]).currentTrail =
      stC1r.currentTrail ++ [(uC1, 1), (uC1b, 2)].map (fun un => recordedPoint un.1 un.2)) ∧
    ((runUpdates (startTrailRecording stC1 0).1 [(uC1, 1), (uC1b, 2)]).currentTrail =
      ⟨pC1.latitude, pC1.longitude, 0, pC1.accuracy⟩ ::
        [(uC1, 1), (uC1b, 2)].map (fun un => recordedPoint un.1 un.2)) :=
  ⟨claim_recording_appends_each_update.1 stC1r uC1 1 (by decide),
    claim_recording_appends_each_update.2.1 stC1r [(uC1, 1), (uC1b, 2)] (by decide),
    claim_recording_appends_each_update.2.2 stC1 pC1 0 [(uC1, 1), (uC1b, 2)] (by decide)⟩

/-- C2: `parseTrailFile` fails (returns null) on malformed XML and when
every extraction strategy yields zero usable points; an upload appends
exactly one fully-constructed Trail on success and leaves the
imported-trails collection unchanged on every failure. -/
theorem claim_parse_failure_no_partial_insert :
    (∀ (doc : XmlDoc) (fn ext : String) (now : Nat),
      doc.parserError = true → parseTrailFile doc fn ext now = none) ∧
    (∀ (doc : XmlDoc) (fn : String) (now : Nat),
      gpxPoints doc.trkpts now = [] → parseTrailFile doc fn ".gpx" now = none) ∧
    (∀ (doc : XmlDoc) (fn : String) (now : Nat),
      kmlPoints doc now = [] → parseTrailFile doc fn ".kml" now = none) ∧
    (∀ (s : State) (fn : String) (doc : XmlDoc) (now : Nat),
      parseTrailFile doc fn (fileExtensionOf fn) now = none →
      (handleFileUpload s fn doc now).1.importedTrails = s.importedTrails) ∧
    (∀ (s : State) (fn : String) (doc : XmlDoc) (now : Nat) (t : Trail),
      parseTrailFile doc fn (fileExtensionOf fn) now = some t →
      (handleFileUpload s fn doc now).1.importedTrails = s.importedTrails ++ [t] ∧
      t.points ≠ [] ∧
      t.startTime = (t.points.headD default).timestamp ∧
      t.endTime = some (t.points.getLastD default).timestamp ∧
      t.distance = some (calculateTrailDistance t.points)) := by
  refine ⟨?_, ?_, ?_, ?_, ?_⟩
  · intro doc fn ext now h
    unfold parseTrailFile
    by_cases hg : ext = ".gpx" <;> by_cases hk : ext = ".kml" <;> simp [hg, hk, h]
  · intro doc fn now h
    unfold parseTrailFile
    by_cases hpe : doc.parserError <;> simp [hpe, h]
  · intro doc fn now h
    unfold parseTrailFile
    by_cases hpe : doc.parserError <;> simp [hpe, h]
  · intro s fn doc now h
    unfold handleFileUpload
    by_cases hv : fileExtensionOf fn = ".gpx" ∨ fileExtensionOf fn = ".kml" <;>
      simp [hv, h]
  · intro s fn doc now t h
    have hv : fileExtensionOf fn = ".gpx" ∨ fileExtensionOf fn = ".kml" := by
      by_contra hnv
      push_neg at hnv
      rw [parseTrailFile_invalid_ext doc fn _ now hnv.1 hnv.2] at h
      exact Option.noConfusion h
    have hshape := parseTrailFile_some_shape doc fn (fileExtensionOf fn) now t h
    refine ⟨?_, hshape.1, hshape.2.1, hshape.2.2.1, hshape.2.2.2.1⟩
    unfold handleFileUpload
    simp [hv, h]

/-- Fixtures for the C2 witness: a malformed GPX document and a healthy
one-track GPX document. -/
def docC2bad : XmlDoc := ⟨true, [⟨some "10", some "20", some 100⟩], [], [], []⟩

def docC2good : XmlDoc :=
  ⟨false, [⟨some "10", some "20", some 100⟩, ⟨some "11", some "21", some 200⟩], [], [], []⟩

def stC2 : State := ⟨none, false, [], [], [], none⟩

/-- The trail the healthy C2 fixture parses to. -/
noncomputable def trailC2 : Trail :=
  ⟨"imported-" ++ toString 0, "hike", [⟨10, 20, 100, none⟩, ⟨11, 21, 200, none⟩],
    100, some 200, some (calculateTrailDistance [⟨10, 20, 100, none⟩, ⟨11, 21, 200, none⟩])⟩

/-- Witness for C2: the malformed document parses to null and inserts
nothing; the healthy document appends exactly its one fully-formed trail. -/
theorem claim_parse_failure_no_partial_insert_witness :
    parseTrailFile docC2bad "hike.gpx" ".gpx" 0 = none ∧
    (handleFileUpload stC2 "hike.gpx" docC2bad 0).1.importedTrails = stC2.importedTrails ∧
    ((handleFileUpload stC2 "hike.gpx" docC2good 0).1.importedTrails =
        stC2.importedTrails ++ [trailC2] ∧
      trailC2.points ≠ [] ∧
      trailC2.startTime = (trailC2.points.headD default).timestamp ∧
      trailC2.endTime = some (trailC2.points.getLastD default).timestamp ∧
      trailC2.distance = some (calculateTrailDistance trailC2.points)) :=
  ⟨claim_parse_failure_no_partial_insert.1 docC2bad "hike.gpx" ".gpx" 0 (by decide),
    claim_parse_failure_no_partial_insert.2.2.2.1 stC2 "hike.gpx" docC2bad 0
      (claim_parse_failure_no_partial_insert.1 docC2bad "hike.gpx"
        (fileExtensionOf "hike.gpx") 0 (by decide)),
    claim_parse_failure_no_partial_insert.2.2.2.2 stC2 "hike.gpx" docC2good 0 trailC2
      (by rfl)⟩

/-- C3: `stopTrailRecording` with fewer than 2 buffered points discards the
buffer, reports "Trail too short to save" and leaves the recorded-trails
collection unchanged; with 2 or more points it appends a Trail named
"Trail N" (N = recorded count + 1) holding the buffer, start time = first
point's timestamp, end time = now, distance = `calculateTrailDistance` of
the buffer, and clears the buffer. -/
theorem claim_stopRecording_branches :
    (∀ (s : State) (now : Nat), s.isRecordingTrail = true → s.currentTrail.length < 2 →
      (stopTrailRecording s now).1.recordedTrails = s.recordedTrails ∧
      (stopTrailRecording s now).1.currentTrail = [] ∧
      (stopTrailRecording s now).1.isRecordingTrail = false ∧
      (stopTrailRecording s now).2 = [Msg.error "Trail too short to save"]) ∧
    (∀ (s : State) (now : Nat), s.isRecordingTrail = true → 2 ≤ s.currentTrail.length →
      (stopTrailRecording s now).1.recordedTrails =
        s.recordedTrails ++
          [{ id := "trail-" ++ toString now
             name := "Trail " ++ toString (s.recordedTrails.length + 1)
             points := s.currentTrail
             startTime := (s.currentTrail.headD default).timestamp
             endTime := some now
             distance := some (calculateTrailDistance s.currentTrail) }] ∧
      (stopTrailRecording s now).1.currentTrail = [] ∧
      (stopTrailRecording s now).1.isRecordingTrail = false) := by
  constructor
  · intro s now _ hlen
    unfold stopTrailRecording
    rw [if_pos hlen]
    exact ⟨rfl, rfl, rfl, rfl⟩
  · intro s now _ hlen
    unfold stopTrailRecording
    rw [if_neg (Nat.not_lt.mpr hlen)]
    exact ⟨rfl, rfl, rfl⟩

/-- Fixtures for the C3 witness: a one-point buffer and a two-point
buffer, both mid-recording. -/
def stC3a : State := ⟨none, true, [⟨1, 2, 5, none⟩], [], [], none⟩

def stC3b : State := ⟨none, true, [⟨1, 2, 5, none⟩, ⟨3, 4, 9, none⟩], [], [], none⟩

/-- Witness for C3 at both branches. -/
theorem claim_stopRecording_branches_witness :
    ((stopTrailRecording stC3a 10).1.recordedTrails = stC3a.recordedTrails ∧
      (stopTrailRecording stC3a 10).1.currentTrail = [] ∧
      (stopTrailRecording stC3a 10).1.isRecordingTrail = false ∧
      (stopTrailRecording stC3a 10).2 = [Msg.error "Trail too short to save"]) ∧
    ((stopTrailRecording stC3b 10).1.recordedTrails =
      stC3b.recordedTrails ++
        [{ id := "trail-" ++ toString 10
           name := "Trail " ++ toString (stC3b.recordedTrails.length + 1)
           points := stC3b.currentTrail
           startTime := (stC3b.currentTrail.headD default).timestamp
           endTime := some 10
           distance := some (calculateTrailDistance stC3b.currentTrail) }] ∧
      (stopTrailRecording stC3b 10).1.currentTrail = [] ∧
      (stopTrailRecording stC3b 10).1.isRecordingTrail = false) :=
  ⟨claim_stopRecording_branches.1 stC3a 10 (by decide) (by decide),
    claim_stopRecording_branches.2 stC3b 10 (by decide) (by decide)⟩

/-- Fixture for the C4 counterexample: the initial idle state (recording
inactive, empty buffer). -/
def stC4 : State := ⟨none, false, [], [], [], none⟩

/-- C4 counterexample: invoking `stopTrailRecording` while no recording
session is active still reports "Trail too short to save" (the source
never consults the recording flag), contradicting the claimed silent
no-op. -/
theorem claim_stopRecording_inactive_cex :
    stC4.isRecordingTrail = false ∧
    (stopTrailRecording stC4 0).2 = [Msg.error "Trail too short to save"] :=
  ⟨rfl, by decide⟩

/-- C4 (amended): invoking `stopTrailRecording` while no recording session
is active (so the buffer is empty) leaves the recorded-trails collection,
the buffer and the recording flag unchanged, but a "Trail too short to
save" outcome is still reported, because the source never checks the
recording flag. -/
theorem claim_stopRecording_inactive :
    ∀ (s : State) (now : Nat), s.isRecordingTrail = false → s.currentTrail = [] →
      (stopTrailRecording s now).1.recordedTrails = s.recordedTrails ∧
      (stopTrailRecording s now).1.importedTrails = s.importedTrails ∧
      (stopTrailRecording s now).1.currentTrail = s.currentTrail ∧
      (stopTrailRecording s now).1.isRecordingTrail = s.isRecordingTrail ∧
      (stopTrailRecording s now).1.selectedTrail = s.selectedTrail ∧
      (stopTrailRecording s now).1.currentPosition = s.currentPosition ∧
      (stopTrailRecording s now).2 = [Msg.error "Trail too short to save"] := by
  intro s now hf hb
  have hlen : s.currentTrail.length < 2 := by rw [hb]; decide
  unfold stopTrailRecording
  rw [if_pos hlen]
  exact ⟨rfl, rfl, hb.symm, hf.symm, rfl, rfl, rfl⟩

/-- Fixture for the C4 witness: an idle state with a live selection. -/
def stC4w : State := ⟨none, false, [], [], [], some "x"⟩

/-- Witness for C4 (amended) at a concrete idle state. -/
theorem claim_stopRecording_inactive_witness :
    (stopTrailRecording stC4w 3).1.recordedTrails = stC4w.recordedTrails ∧
    (stopTrailRecording stC4w 3).1.importedTrails = stC4w.importedTrails ∧
    (stopTrailRecording stC4w 3).1.currentTrail = stC4w.currentTrail ∧
    (stopTrailRecording stC4w 3).1.isRecordingTrail = stC4w.isRecordingTrail ∧
    (stopTrailRecording stC4w 3).1.selectedTrail = stC4w.selectedTrail ∧
    (stopTrailRecording stC4w 3).1.currentPosition = stC4w.currentPosition ∧
    (stopTrailRecording stC4w 3).2 = [Msg.error "Trail too short to save"] :=
  claim_stopRecording_inactive stC4w 3 (by decide) (by decide)

/-- Fixture for the C5 counterexample: a state with empty collections. -/
def stC5 : State := ⟨none, false, [], [], [], none⟩

/-- C5 counterexample: `exportTrail` on an id absent from the selected
collection produces no file and an empty message list — no "nothing to
export" report is ever emitted (the source returns silently),
contradicting the claimed report. -/
theorem claim_export_missing_cex :
    (exportTrail stC5 "trail-1" false).2.1 = none ∧
    (exportTrail stC5 "trail-1" false).2.2 = [] := by
  exact ⟨rfl, rfl⟩

/-- C5 (amended): for every session state, `exportTrail` with an id not
found in the collection selected by the provenance flag produces no export
file and leaves all state unchanged, but reports nothing at all: the
failure is silent. -/
theorem claim_export_missing_silent :
    ∀ (s : State) (trailId : String) (isImported : Bool),
      (∀ t ∈ (if isImported then s.importedTrails else s.recordedTrails), ¬ t.id = trailId) →
      exportTrail s trailId isImported = (s, none, []) := by
  intro s tid prov h
  have hf : (if prov then s.importedTrails else s.recordedTrails).find?
      (fun t => t.id = tid) = none := by
    rw [List.find?_eq_none]
    intro t ht
    simpa using h t ht
  simp only [exportTrail, hf]

/-- Fixtures for the C5 witness: one imported trail with a different id. -/
def trailC5 : Trail := ⟨"b", "B", [⟨1, 2, 0, none⟩], 0, none, none⟩

def stC5w : State := ⟨none, false, [], [], [trailC5], none⟩

/-- Witness for C5 (amended) at a concrete state and missing id. -/
theorem claim_export_missing_silent_witness :
    exportTrail stC5w "a" true = (stC5w, none, []) :=
  claim_export_missing_silent stC5w "a" true (by decide)

/-- C10: `deleteTrail` always reports "Trail deleted" and clears the trail
selection whenever the deleted id equals the selected one, even when the
provenance flag picks a collection that does not contain the id, in which
case both trail collections are left unchanged. -/
theorem claim_deleteTrail_clears_selection :
    ∀ (s : State) (trailId : String) (isImported : Bool),
      ((deleteTrail s trailId isImported).2 = [Msg.success "Trail deleted"]) ∧
      (s.selectedTrail = some trailId →
        (deleteTrail s trailId isImported).1.selectedTrail = none) ∧
      ((∀ t ∈ (if isImported then s.importedTrails else s.recordedTrails), ¬ t.id = trailId) →
        (deleteTrail s trailId isImported).1.recordedTrails = s.recordedTrails ∧
        (deleteTrail s trailId isImported).1.importedTrails = s.importedTrails) := by
  intro s tid prov
  have hfilter : ∀ l : List Trail, (∀ t ∈ l, ¬ t.id = tid) →
      l.filter (fun t => ¬ t.id = tid) = l := by
    intro l hl
    rw [List.filter_eq_self]
    intro t ht
    simpa using hl t ht
  cases prov with
  | false =>
      unfold deleteTrail
      by_cases hsel : s.selectedTrail = some tid <;> simp [hsel]
  | true =>
      unfold deleteTrail
      by_cases hsel : s.selectedTrail = some tid <;> simp [hsel]

/-- Fixtures for the C10 witness: one imported trail with id "b", current
selection "a", deletion of "a" with imported provenance. -/
def trailC10 : Trail := ⟨"b", "B", [⟨1, 1, 0, none⟩], 0, none, none⟩

def stC10 : State := ⟨none, false, [], [], [trailC10], some "a"⟩

/-- Witness for C10 at a concrete state: absent id, matching selection. -/
theorem claim_deleteTrail_clears_selection_witness :
    (deleteTrail stC10 "a" true).2 = [Msg.success "Trail deleted"] ∧
    (deleteTrail stC10 "a" true).1.selectedTrail = none ∧
    (deleteTrail stC10 "a" true).1.recordedTrails = stC10.recordedTrails ∧
    (deleteTrail stC10 "a" true).1.importedTrails = stC10.importedTrails :=
  ⟨(claim_deleteTrail_clears_selection stC10 "a" true).1,
    (claim_deleteTrail_clears_selection stC10 "a" true).2.1 (by decide),
    ((claim_deleteTrail_clears_selection stC10 "a" true).2.2 (by decide)).1,
    ((claim_deleteTrail_clears_selection stC10 "a" true).2.2 (by decide)).2⟩
